import Mathlib

/-!
Shallow embedding of the omnifocus-extension repository: the AI-capability
detection and summarization orchestration layer together with the
add-to-OmniFocus save pathway, across the revisions found in the sources
(src/background.js, src/ai-service.js, src/unnamed/part_006,
src/unnamed/part_007, src/unnamed/part_009).

JavaScript promises that either fulfil or reject are modelled with
Except JsError; observable side effects (backend session creation and
teardown, backend invocations, page-text extractions, URLs handed to the
external sink) are recorded in an explicit Trace threaded through each
function.  Host-environment behaviour (which AI globals exist, what each
probe or backend call returns) is an explicit Host record.
-/

/-- A thrown JavaScript Error, carrying its message string. -/
inductive JsError where
  | error (msg : String)
deriving DecidableEq, Repr

/-- The availability states reported by the stable Summarizer API. -/
inductive Availability where
  | available
  | downloadable
  | downloading
  | unavailable
deriving DecidableEq, Repr

/-- The string form of an availability state, as the host API reports it. -/
def Availability.asString : Availability → String
  | .available => "available"
  | .downloadable => "downloadable"
  | .downloading => "downloading"
  | .unavailable => "unavailable"

/-- The apiType field of ChromeAIAbstraction in src/background.js. -/
inductive ApiType where
  | stable
  | experimental
  | prompt
  | unavailable
deriving DecidableEq, Repr

/-- A browser tab as the save pathway reads it: a title and a possibly
missing url (JS undefined and the empty string are both falsy). -/
structure Tab where
  title : String
  url : Option String
deriving DecidableEq, Repr

/-- Observable effects of one run: backend session creations and
teardowns, backend invocations, page-text extractions, and the URLs
handed to the external sink (chrome.tabs.create). -/
structure Trace where
  createCount : Nat := 0
  destroyCount : Nat := 0
  invokeCount : Nat := 0
  extractCount : Nat := 0
  sinkUrls : List String := []
deriving DecidableEq, Repr

deriving instance DecidableEq for Except

/-- The ambient host environment: which AI globals exist and the outcome
of every probe or backend call the code can make.  Each Except field is
the settled result of the corresponding host promise. -/
structure Host where
  /-- typeof Summarizer is not undefined (the stable global exists). -/
  summarizerDefined : Bool
  /-- Summarizer.availability is truthy. -/
  summarizerHasAvailability : Bool
  /-- settled result of Summarizer.availability(). -/
  stableAvailability : Except JsError Availability
  /-- settled result of Summarizer.create(...), handle abstracted to Unit. -/
  stableCreate : Except JsError Unit
  /-- settled result of invoking summarize on the stable summarizer. -/
  stableSummarize : Except JsError String
  /-- the global ai object exists. -/
  aiDefined : Bool
  /-- ai.summarizer is truthy. -/
  aiSummarizer : Bool
  /-- ai.languageModel is truthy. -/
  aiLanguageModel : Bool
  /-- ai.rewriter is truthy. -/
  aiRewriter : Bool
  /-- settled result of ai.languageModel.capabilities(), projected to the
  available field. -/
  lmCapabilities : Except JsError String
  /-- settled result of ai.summarizer.capabilities(), projected to the
  available field. -/
  sumCapabilities : Except JsError String
  /-- settled result of ai.languageModel.create(...). -/
  lmCreate : Except JsError Unit
  /-- settled result of session.prompt(text). -/
  lmPrompt : Except JsError String
  /-- settled result of ai.summarizer.create(...). -/
  expCreate : Except JsError Unit
  /-- settled result of invoking summarize on the experimental summarizer. -/
  expSummarize : Except JsError String
  /-- settled result of the page-text extraction executeScript call. -/
  pageText : Except JsError String
deriving DecidableEq, Repr

/-! ## encodeURIComponent

A faithful executable model of the JavaScript encodeURIComponent:
characters outside the unreserved set are replaced by the uppercase
percent-encoding of their UTF-8 bytes. -/

/-- Characters encodeURIComponent leaves unescaped. -/
def isUnreservedChar (c : Char) : Bool :=
  c.isAlphanum || c == '-' || c == '_' || c == '.' || c == '!' || c == '~' ||
    c == '*' || c == Char.ofNat 39 || c == '(' || c == ')'

/-- Uppercase hexadecimal digit for a value below 16. -/
def hexChar (n : Nat) : Char :=
  if n < 10 then Char.ofNat (48 + n) else Char.ofNat (55 + n)

/-- UTF-8 bytes of a code point. -/
def utf8Bytes (n : Nat) : List Nat :=
  if n < 128 then [n]
  else if n < 2048 then [192 + n / 64, 128 + n % 64]
  else if n < 65536 then [224 + n / 4096, 128 + n / 64 % 64, 128 + n % 64]
  else [240 + n / 262144, 128 + n / 4096 % 64, 128 + n / 64 % 64, 128 + n % 64]

/-- Percent-encoding of one byte. -/
def percentByte (b : Nat) : String :=
  String.mk ['%', hexChar (b / 16), hexChar (b % 16)]

/-- Encoding of one character. -/
def encodeChar (c : Char) : String :=
  if isUnreservedChar c then String.singleton c
  else String.join ((utf8Bytes c.toNat).map percentByte)

/-- The JavaScript encodeURIComponent function. -/
def encodeURIComponent (s : String) : String :=
  String.join (s.toList.map encodeChar)

/-- The JavaScript String trim method: whitespace stripped from both
ends (structurally recursive model). -/
def trimString (s : String) : String :=
  String.mk
    (((s.toList.dropWhile Char.isWhitespace).reverse.dropWhile
      Char.isWhitespace).reverse)

/-! ## withTimeout (src/background.js lines 221-230, identical in
src/unnamed/part_006 and part_007)

The timing behaviour of Promise.race is modelled denotationally: a
promise either settles at some time with a value or rejection, or never
settles. -/

/-- A promise with its settling time, or a promise that never settles. -/
inductive TimedPromise (α : Type) where
  | resolves (time : Nat) (val : Except JsError α)
  | never
deriving DecidableEq, Repr

/-- Promise.race of two promises: whichever settles first wins; on a tie
the first element of the array wins. -/
def promiseRace {α : Type} : TimedPromise α → TimedPromise α → TimedPromise α
  | .never, q => q
  | .resolves t v, .never => .resolves t v
  | .resolves t v, .resolves t' v' =>
      if t ≤ t' then .resolves t v else .resolves t' v'

/-- The inner timeoutPromise of withTimeout: rejects after duration with
the given message, or the default message when message is falsy. -/
def timeoutRejection (α : Type) (duration : Nat) (message : String) : TimedPromise α :=
  .resolves duration (.error (.error
    (if message == "" then "Timed out after " ++ toString duration ++ "ms" else message)))

/-- withTimeout wraps a promise in Promise.race against a rejection that
fires after duration milliseconds. -/
def withTimeout {α : Type} (promise : TimedPromise α) (duration : Nat)
    (message : String) : TimedPromise α :=
  promiseRace promise (timeoutRejection α duration message)

/-- Resolver for the race inside orchestrating code whose other effects
are modelled in Trace: timeoutFires is true exactly when the timeout
promise settles before the wrapped computation; in that case the wrapped
computation is abandoned and its pending effects never become observable
to the continuation. -/
def raceTimeout {α : Type} (timeoutFires : Bool) (message : String)
    (inner : Except JsError α × Trace) (tr : Trace) : Except JsError α × Trace :=
  if timeoutFires then (.error (.error message), tr) else inner

/-! ## ChromeAIAbstraction (src/background.js lines 2-192) -/

/-- checkAvailability (src/background.js lines 11-47).  The stable tier
probe runs inside a try/catch whose catch only logs, so a throwing probe
falls through to the experimental and prompt tiers.  The result is the
pair (apiType, apiReady) the method stores on the instance (its boolean
return value equals apiReady). -/
def ChromeAIAbstraction.checkAvailability (h : Host) :
    Except JsError (ApiType × Bool) :=
  let fallthroughExperimental : Except JsError (ApiType × Bool) :=
    if h.aiDefined && h.aiSummarizer then .ok (.experimental, true)
    else if h.aiDefined && h.aiLanguageModel then .ok (.prompt, true)
    else .ok (.unavailable, false)
  if h.summarizerDefined && h.summarizerHasAvailability then
    match h.stableAvailability with
    | .ok a =>
        if a == .available || a == .downloadable || a == .downloading then
          .ok (.stable, true)
        else fallthroughExperimental
    | .error _ => fallthroughExperimental
  else fallthroughExperimental

/-- The (apiType, apiReady) state of the module-level chromeAI instance
after the startup checkAvailability call. -/
def chromeAIStartup (h : Host) : ApiType × Bool :=
  match ChromeAIAbstraction.checkAvailability h with
  | .ok r => r
  | .error _ => (.unavailable, false)

/-- The apiType after the lazy re-check at the top of createSummarizer:
when apiReady is false the method first awaits checkAvailability, which
overwrites the instance apiType. -/
def ChromeAIAbstraction.refreshedApiType (h : Host) (apiType : ApiType)
    (apiReady : Bool) : ApiType :=
  if apiReady then apiType else (chromeAIStartup h).1

/-- createSummarizer (src/background.js lines 50-115).  On the stable
tier it re-probes Summarizer.availability, throws when that reports
unavailable, and otherwise creates the summarizer (awaiting the model
download when needed, folded into the create outcome); on the
experimental tier it creates via ai.summarizer.create; otherwise it
throws.  The wrapping try/catch logs and rethrows. -/
def ChromeAIAbstraction.createSummarizer (h : Host) (apiType : ApiType)
    (apiReady : Bool) (tr : Trace) : Except JsError Unit × Trace :=
  match ChromeAIAbstraction.refreshedApiType h apiType apiReady with
  | .stable =>
      match h.stableAvailability with
      | .error e => (.error e, tr)
      | .ok .unavailable => (.error (.error ("Summarizer API is not available")), tr)
      | .ok _ =>
          match h.stableCreate with
          | .ok _ => (.ok (), { tr with createCount := tr.createCount + 1 })
          | .error e => (.error e, tr)
  | .experimental =>
      match h.expCreate with
      | .ok _ => (.ok (), { tr with createCount := tr.createCount + 1 })
      | .error e => (.error e, tr)
  | _ => (.error (.error ("No compatible AI API available")), tr)

/-- promptSummary (src/background.js lines 142-156): creates a language
model session, prompts it, and returns the summary.  The session is
never destroyed here. -/
def ChromeAIAbstraction.promptSummary (h : Host) (tr : Trace) :
    Except JsError String × Trace :=
  match h.lmCreate with
  | .error e => (.error e, tr)
  | .ok _ =>
      (h.lmPrompt, { tr with
        createCount := tr.createCount + 1, invokeCount := tr.invokeCount + 1 })

/-- summarize (src/background.js lines 118-139).  Lazily creates the
cached summarizer when the instance has none (hasSummarizer false), then
dispatches on apiType; the try/catch logs and rethrows, so errors
propagate unchanged. -/
def ChromeAIAbstraction.summarize (h : Host) (apiType : ApiType)
    (apiReady hasSummarizer : Bool) (tr : Trace) : Except JsError String × Trace :=
  let dispatchType :=
    if hasSummarizer then apiType
    else ChromeAIAbstraction.refreshedApiType h apiType apiReady
  let step : Except JsError Unit × Trace :=
    if hasSummarizer then (.ok (), tr)
    else ChromeAIAbstraction.createSummarizer h apiType apiReady tr
  match step with
  | (.error e, tr2) => (.error e, tr2)
  | (.ok _, tr2) =>
      match dispatchType with
      | .stable => (h.stableSummarize, { tr2 with invokeCount := tr2.invokeCount + 1 })
      | .experimental => (h.expSummarize, { tr2 with invokeCount := tr2.invokeCount + 1 })
      | .prompt => ChromeAIAbstraction.promptSummary h tr2
      | .unavailable => (.error (.error ("No summarizer available")), tr2)

/-! ## Top-level functions of src/background.js -/

/-- The extension options record of src/background.js lines 198-203. -/
structure ExtOpts where
  timeout : Nat
  summaryEnabled : Bool
  debug : Bool
  minLength : Nat
deriving DecidableEq, Repr

/-- extOpts (src/background.js lines 198-203). -/
def Background.extOpts : ExtOpts :=
  { timeout := 10000, summaryEnabled := true, debug := true, minLength := 50 }

/-- getTextContent (src/background.js lines 237-257): one executeScript
extraction whose settled outcome the host supplies. -/
def Background.getTextContent (h : Host) (tr : Trace) :
    Except JsError String × Trace :=
  (h.pageText, { tr with extractCount := tr.extractCount + 1 })

/-- generateSummary (src/background.js lines 265-279): returns the empty
string for missing or short text, otherwise calls chromeAI.summarize and
returns the empty string when that throws (the catch only logs). -/
def Background.generateSummary (h : Host) (apiType : ApiType)
    (apiReady hasSummarizer : Bool) (text : String) (tr : Trace) :
    Except JsError String × Trace :=
  if text == "" || text.length < Background.extOpts.minLength then (.ok (""), tr)
  else
    match ChromeAIAbstraction.summarize h apiType apiReady hasSummarizer tr with
    | (.ok s, tr2) => (.ok s, tr2)
    | (.error _, tr2) => (.ok (""), tr2)

/-- The OmniFocus scheme URL built by the save pathway of
src/background.js line 338 (identically in part_006 line 135). -/
def omnifocusUrl (title note : String) : String :=
  "omnifocus:///add?name=" ++ encodeURIComponent title ++
    "&note=" ++ encodeURIComponent note

/-- The noteContent computation of addToOmniFocus (src/background.js
lines 292-329): the bare url, extended by a blank line and the trimmed
summary when summarization is enabled, ready and succeeds in time with a
non-blank summary; the whole block is in a try/catch that continues with
the bare url on any failure. -/
def Background.noteStep (h : Host) (doAI : Bool) (apiType : ApiType)
    (apiReady hasSummarizer timeoutFires : Bool) (u : String) (tr : Trace) :
    String × Trace :=
  if doAI && Background.extOpts.summaryEnabled && apiReady then
    match Background.getTextContent h tr with
    | (.error _, tr2) => (u, tr2)
    | (.ok pageText, tr2) =>
        if pageText != "" && Background.extOpts.minLength ≤ pageText.length then
          match raceTimeout timeoutFires
              ("Summary generation timed out for " ++ u)
              (Background.generateSummary h apiType apiReady
                hasSummarizer pageText tr2) tr2 with
          | (.error _, tr3) => (u, tr3)
          | (.ok summary, tr3) =>
              if summary != "" && trimString summary != "" then
                (u ++ "\n\n" ++ trimString summary, tr3)
              else (u, tr3)
        else (u, tr2)
  else (u, tr)

/-- addToOmniFocus (src/background.js lines 287-354).  Throws for a
missing tab or falsy url; otherwise computes the note via
Background.noteStep and hands the encoded title and note to the external
sink.  The summarize race against the timeout is resolved by the
timeoutFires oracle. -/
def Background.addToOmniFocus (h : Host) (tab : Option Tab) (doAI : Bool)
    (apiType : ApiType) (apiReady hasSummarizer timeoutFires : Bool)
    (tr : Trace) : Except JsError Unit × Trace :=
  match tab with
  | none => (.error (.error ("Invalid tab provided")), tr)
  | some tb =>
      match tb.url with
      | none => (.error (.error ("Invalid tab provided")), tr)
      | some u =>
          if u == "" then (.error (.error ("Invalid tab provided")), tr)
          else
            match Background.noteStep h doAI apiType apiReady hasSummarizer
                timeoutFires u tr with
            | (noteContent, tr4) =>
                (.ok (), { tr4 with
                  sinkUrls := tr4.sinkUrls ++ [omnifocusUrl tb.title noteContent] })

/-! ## ChromeAIService (src/ai-service.js lines 7-212) -/

/-- The apiVersion values of ChromeAIService. -/
inductive ApiVersion where
  | stable
  | experimental
deriving DecidableEq, Repr

/-- The record returned by ChromeAIService.checkAvailability. -/
structure AvailabilityResult where
  available : Bool
  status : String
  version : Option String
deriving DecidableEq, Repr

/-- The apiVersion established by ChromeAIService.initialize
(src/ai-service.js lines 17-41): stable when the Summarizer global is in
scope, else experimental when window.ai exposes a language model or
summarizer, else none (the service stays uninitialized). -/
def ChromeAIService.apiVersionOf (h : Host) : Option ApiVersion :=
  if h.summarizerDefined then some .stable
  else if h.aiDefined && (h.aiLanguageModel || h.aiSummarizer) then some .experimental
  else none

/-- checkAvailability (src/ai-service.js lines 46-74).  On the stable
tier it reports the probed availability string (available only for
available or downloadable, with a throwing probe reported as status
error); the experimental tier is always reported available; otherwise
everything is unavailable. -/
def ChromeAIService.checkAvailability (h : Host) : AvailabilityResult :=
  match ChromeAIService.apiVersionOf h with
  | some .stable =>
      match h.stableAvailability with
      | .ok a =>
          { available := a == .available || a == .downloadable,
            status := a.asString, version := some ("stable") }
      | .error _ =>
          { available := false, status := "error", version := some ("stable") }
  | some .experimental =>
      { available := true, status := "available", version := some ("experimental") }
  | none => { available := false, status := "unavailable", version := none }

/-- getSummarizer (src/ai-service.js lines 79-141): on the stable tier
re-probes availability, throws when unavailable, and creates the
summarizer; on the experimental tier creates the dedicated summarizer
when present and otherwise returns null; throws when no API exists. -/
def ChromeAIService.getSummarizer (h : Host) (tr : Trace) :
    Except JsError (Option Unit) × Trace :=
  match ChromeAIService.apiVersionOf h with
  | some .stable =>
      match h.stableAvailability with
      | .error e => (.error e, tr)
      | .ok .unavailable => (.error (.error ("Summarizer API is not available")), tr)
      | .ok _ =>
          match h.stableCreate with
          | .ok _ => (.ok (some ()), { tr with createCount := tr.createCount + 1 })
          | .error e => (.error e, tr)
  | some .experimental =>
      if h.aiSummarizer then
        match h.expCreate with
        | .ok _ => (.ok (some ()), { tr with createCount := tr.createCount + 1 })
        | .error e => (.error e, tr)
      else (.ok none, tr)
  | none => (.error (.error ("No AI APIs available")), tr)

/-- summarize (src/ai-service.js lines 146-200), non-streaming path.
Short or missing text returns the sentinel string without touching any
backend; then availability is checked, the appropriate backend is
created and invoked, with the experimental language-model fallback
destroying its session after a successful prompt only.  The outer
try/catch logs and rethrows. -/
def ChromeAIService.summarize (h : Host) (text : String) (tr : Trace) :
    Except JsError String × Trace :=
  if text == "" || text.length < 50 then (.ok ("Text too short to summarize"), tr)
  else if !(ChromeAIService.checkAvailability h).available then
    (.error (.error ("AI features not available")), tr)
  else
    match ChromeAIService.apiVersionOf h with
    | some .stable =>
        match ChromeAIService.getSummarizer h tr with
        | (.error e, tr2) => (.error e, tr2)
        | (.ok _, tr2) =>
            (h.stableSummarize, { tr2 with invokeCount := tr2.invokeCount + 1 })
    | some .experimental =>
        if h.aiSummarizer then
          match ChromeAIService.getSummarizer h tr with
          | (.error e, tr2) => (.error e, tr2)
          | (.ok _, tr2) =>
              (h.expSummarize, { tr2 with invokeCount := tr2.invokeCount + 1 })
        else if h.aiLanguageModel then
          match h.lmCreate with
          | .error e => (.error e, tr)
          | .ok _ =>
              let tr2 := { tr with
                createCount := tr.createCount + 1, invokeCount := tr.invokeCount + 1 }
              match h.lmPrompt with
              | .error e => (.error e, tr2)
              | .ok s => (.ok s, { tr2 with destroyCount := tr2.destroyCount + 1 })
        else (.error (.error ("No summarization method available")), tr)
    | none => (.error (.error ("No summarization method available")), tr)

/-! ## The service-worker revision of src/ai-service.js (lines 220-689):
CONFIG, AIService, ContentExtractor, OmniFocusService,
ExtensionController -/

/-- The CONFIG record (src/ai-service.js lines 226-232). -/
structure Config where
  timeout : Nat
  minTextLength : Nat
  debug : Bool
  omnifocusScheme : String
  tabCleanupDelay : Nat
deriving DecidableEq, Repr

/-- CONFIG (src/ai-service.js lines 226-232). -/
def CONFIG : Config :=
  { timeout := 10000, minTextLength := 100, debug := true,
    omnifocusScheme := "omnifocus:///add", tabCleanupDelay := 1000 }

/-- The capabilities record of AIService (src/ai-service.js lines
263-267). -/
structure Capabilities where
  languageModel : Bool
  summarizer : Bool
  ready : Bool
deriving DecidableEq, Repr

/-- detectCapabilities (src/ai-service.js lines 274-318), written with
the try/catch structure of the source made explicit: each probe failure
is caught and leaves that capability false, and the outer catch returns
the capabilities record as well, so the method always fulfils. -/
def AIService.detectCapabilities (h : Host) : Except JsError Capabilities :=
  if !h.aiDefined then
    .ok { languageModel := false, summarizer := false, ready := false }
  else
    let lm := h.aiLanguageModel &&
      (match h.lmCapabilities with
       | .ok s => s == "readily"
       | .error _ => false)
    let sum := h.aiSummarizer &&
      (match h.sumCapabilities with
       | .ok s => s == "readily"
       | .error _ => false)
    .ok { languageModel := lm, summarizer := sum, ready := lm || sum }

/-- The capabilities of the service after its startup detection. -/
def AIService.capsOf (h : Host) : Capabilities :=
  match AIService.detectCapabilities h with
  | .ok c => c
  | .error _ => { languageModel := false, summarizer := false, ready := false }

/-- _generateWithLanguageModel (src/ai-service.js lines 351-369).
Creates a language model session, prompts it, destroys the session, and
returns the trimmed summary; the catch logs and rethrows.  Note that
session.destroy() is on the straight-line path after the prompt, so a
rejecting prompt skips it. -/
def AIService.generateWithLanguageModel (h : Host) (tr : Trace) :
    Except JsError String × Trace :=
  match h.lmCreate with
  | .error e => (.error e, tr)
  | .ok _ =>
      let tr2 := { tr with
        createCount := tr.createCount + 1, invokeCount := tr.invokeCount + 1 }
      match h.lmPrompt with
      | .error e => (.error e, tr2)
      | .ok s => (.ok (trimString s), { tr2 with destroyCount := tr2.destroyCount + 1 })

/-- _generateWithSummarizer (src/ai-service.js lines 371-389): the same
shape over ai.summarizer, with the same straight-line destroy. -/
def AIService.generateWithSummarizer (h : Host) (tr : Trace) :
    Except JsError String × Trace :=
  match h.expCreate with
  | .error e => (.error e, tr)
  | .ok _ =>
      let tr2 := { tr with
        createCount := tr.createCount + 1, invokeCount := tr.invokeCount + 1 }
      match h.expSummarize with
      | .error e => (.error e, tr2)
      | .ok s => (.ok (trimString s), { tr2 with destroyCount := tr2.destroyCount + 1 })

/-- generateSummary (src/ai-service.js lines 323-349), with caps the
detected capabilities of the service instance.  Throws when no service
is ready or the text is too short; otherwise tries the language model
first and falls back to the summarizer. -/
def AIService.generateSummary (h : Host) (caps : Capabilities) (text : String)
    (tr : Trace) : Except JsError String × Trace :=
  if !caps.ready then (.error (.error ("AI services not available")), tr)
  else if text.length < CONFIG.minTextLength then
    (.error (.error ("Text too short (" ++ toString text.length ++
      " chars, minimum " ++ toString CONFIG.minTextLength ++ ")")), tr)
  else if caps.languageModel then AIService.generateWithLanguageModel h tr
  else if caps.summarizer then AIService.generateWithSummarizer h tr
  else (.error (.error ("No AI services available for summarization")), tr)

/-- ContentExtractor.extractText (src/ai-service.js lines 400-415): one
executeScript extraction, with a failure rewrapped as a
failed-to-extract error. -/
def ContentExtractor.extractText (h : Host) (tr : Trace) :
    Except JsError String × Trace :=
  let tr2 := { tr with extractCount := tr.extractCount + 1 }
  match h.pageText with
  | .ok s => (.ok s, tr2)
  | .error (.error m) => (.error (.error ("Failed to extract content: " ++ m)), tr2)

/-- OmniFocusService.addTask (src/ai-service.js lines 469-499): encodes
title and note once each and hands the scheme URL to the external sink. -/
def OmniFocusService.addTask (title note : String) (tr : Trace) :
    Except JsError Unit × Trace :=
  let url := CONFIG.omnifocusScheme ++ "?name=" ++ encodeURIComponent title ++
    "&note=" ++ encodeURIComponent note
  (.ok (), { tr with sinkUrls := tr.sinkUrls ++ [url] })

/-- The literal placed between the url and the summary in
ExtensionController.addCurrentTab (src/ai-service.js line 569); the
source file holds the three bytes-as-characters U+00F0 U+0178 U+201C
followed by a space, the words AI Summary, a colon and a newline. -/
def summaryMarker : String := "ðŸ“ AI Summary:\n"

/-- The noteContent computation of addCurrentTab (src/ai-service.js
lines 554-577): the bare url, extended by a blank line, the marker and
the summary when summarization is requested, ready and succeeds in time
with a truthy summary; the block is in a try/catch that continues with
the bare url on any failure. -/
def ExtensionController.noteStep (h : Host) (includeAISummary : Bool)
    (caps : Capabilities) (timeoutFires : Bool) (u : String) (tr : Trace) :
    String × Trace :=
  if includeAISummary && caps.ready then
    match ContentExtractor.extractText h tr with
    | (.error _, tr2) => (u, tr2)
    | (.ok pageText, tr2) =>
        match raceTimeout timeoutFires
            ("AI summarization timed out after " ++
              toString CONFIG.timeout ++ "ms")
            (AIService.generateSummary h caps pageText tr2) tr2 with
        | (.error _, tr3) => (u, tr3)
        | (.ok summary, tr3) =>
            if summary != "" then
              (u ++ "\n\n" ++ summaryMarker ++ summary, tr3)
            else (u, tr3)
  else (u, tr)

/-- ExtensionController.addCurrentTab (src/ai-service.js lines 541-592),
with activeTab the result of the tabs query and caps the capabilities of
the controller AIService.  Throws for a missing tab or falsy url; the
summarization block is in a try/catch that continues without a summary;
the note is the url alone or the url, a blank line, the marker and the
summary; finally OmniFocusService.addTask runs.  The returned status
record is modelled as Unit. -/
def ExtensionController.addCurrentTab (h : Host) (activeTab : Option Tab)
    (includeAISummary : Bool) (caps : Capabilities) (timeoutFires : Bool)
    (tr : Trace) : Except JsError Unit × Trace :=
  match activeTab with
  | none => (.error (.error ("No active tab found")), tr)
  | some tb =>
      match tb.url with
      | none => (.error (.error ("No active tab found")), tr)
      | some u =>
          if u == "" then (.error (.error ("No active tab found")), tr)
          else
            match ExtensionController.noteStep h includeAISummary caps
                timeoutFires u tr with
            | (noteContent, tr4) => OmniFocusService.addTask tb.title noteContent tr4

/-! ## The revision in src/unnamed/part_006 -/

/-- The aiReady flag of extOpts in part_006 lines 3-7: all of ai,
ai.languageModel, ai.summarizer and ai.rewriter must be truthy. -/
def Part006.aiReady (h : Host) : Bool :=
  h.aiDefined && h.aiLanguageModel && h.aiSummarizer && h.aiRewriter

/-- The summaryEnabled option of part_006 (line 9). -/
def Part006.summaryEnabled : Bool := true

/-- The minLength option of part_006 (line 11). -/
def Part006.minLength : Nat := 50

/-- The timeout option of part_006 (line 8). -/
def Part006.timeout : Nat := 20000

/-- getTextContent (part_006 lines 43-55). -/
def Part006.getTextContent (h : Host) (tr : Trace) :
    Except JsError String × Trace :=
  (h.pageText, { tr with extractCount := tr.extractCount + 1 })

/-- getSummary (part_006 lines 76-101): returns the empty string for
short text, otherwise creates the experimental summarizer and invokes
it.  The summarizer is never destroyed. -/
def Part006.getSummary (h : Host) (longText : String) (tr : Trace) :
    Except JsError String × Trace :=
  if longText.length < Part006.minLength then (.ok (""), tr)
  else
    match h.expCreate with
    | .error e => (.error e, tr)
    | .ok _ =>
        (h.expSummarize, { tr with
          createCount := tr.createCount + 1, invokeCount := tr.invokeCount + 1 })

/-- The noteContent computation of addToOmniFocus (part_006 lines
111-127): the bare url, extended by a blank line and the summary when
summarization succeeds in time with a truthy summary. -/
def Part006.noteStep (h : Host) (doAI timeoutFires : Bool) (u : String)
    (tr : Trace) : String × Trace :=
  if doAI && Part006.summaryEnabled && Part006.aiReady h then
    match Part006.getTextContent h tr with
    | (.error _, tr2) => (u, tr2)
    | (.ok pageText, tr2) =>
        match raceTimeout timeoutFires
            ("Timeout getting summary for " ++ u)
            (Part006.getSummary h pageText tr2) tr2 with
        | (.error _, tr3) => (u, tr3)
        | (.ok summary, tr3) =>
            if summary != "" then (u ++ "\n\n" ++ summary, tr3)
            else (u, tr3)
  else (u, tr)

/-- addToOmniFocus (part_006 lines 108-143).  Throws for an invalid
tab; the summarization block is in a try/catch whose catch only logs;
a truthy summary (non-empty, without trimming) is appended to the url
after a blank line; the encoded title and note go to the external sink. -/
def Part006.addToOmniFocus (h : Host) (tab : Option Tab) (doAI timeoutFires : Bool)
    (tr : Trace) : Except JsError Unit × Trace :=
  match tab with
  | none => (.error (.error ("Invalid tab provided")), tr)
  | some tb =>
      match tb.url with
      | none => (.error (.error ("Invalid tab provided")), tr)
      | some u =>
          if u == "" then (.error (.error ("Invalid tab provided")), tr)
          else
            match Part006.noteStep h doAI timeoutFires u tr with
            | (noteContent, tr4) =>
                (.ok (), { tr4 with
                  sinkUrls := tr4.sinkUrls ++ [omnifocusUrl tb.title noteContent] })

/-! ## The AI revision in src/unnamed/part_009 (lines 62-209) -/

/-- aiAvailable (part_009 lines 62-65). -/
def Part009.aiAvailable (h : Host) : Bool :=
  h.aiDefined && h.aiLanguageModel && h.aiSummarizer && h.aiRewriter

/-- getTextContent (part_009 lines 68-78). -/
def Part009.getTextContent (h : Host) (tr : Trace) :
    Except JsError String × Trace :=
  (h.pageText, { tr with extractCount := tr.extractCount + 1 })

/-- getSummary (part_009 lines 89-115): creates the experimental
summarizer and invokes it; no length check, no teardown. -/
def Part009.getSummary (h : Host) (tr : Trace) : Except JsError String × Trace :=
  match h.expCreate with
  | .error e => (.error e, tr)
  | .ok _ =>
      (h.expSummarize, { tr with
        createCount := tr.createCount + 1, invokeCount := tr.invokeCount + 1 })

/-- The summaryText computation of addToOmniFocus (part_009 lines
127-141): extraction and summarization run in a try/catch whose catch
only logs, leaving summaryText empty on failure. -/
def Part009.summaryStep (h : Host) (tr : Trace) : String × Trace :=
  match Part009.getTextContent h tr with
  | (.error _, tr2) => ("", tr2)
  | (.ok pageText, tr2) =>
      if Part009.aiAvailable h && pageText != "" then
        match Part009.getSummary h tr2 with
        | (.error _, tr3) => ("", tr3)
        | (.ok s, tr3) => (s, tr3)
      else ("", tr2)

/-- addToOmniFocus (part_009 lines 124-161).  The title and url are read
off the tab without validation; a truthy summary yields the note built
from the literal pieces URL-colon, the url, a spaced blank line and
Summary-colon before the summary text; otherwise the note is the bare
url; the encoded title and note go to the external sink. -/
def Part009.addToOmniFocus (h : Host) (title url : String) (tr : Trace) :
    Except JsError Unit × Trace :=
  match Part009.summaryStep h tr with
  | (summaryText, tr4) =>
      let noteContent :=
        if summaryText != "" then
          "URL: " ++ url ++ " \n\n Summary: " ++ summaryText
        else url
      (.ok (), { tr4 with
        sinkUrls := tr4.sinkUrls ++ [omnifocusUrl title noteContent] })

/-! ## The revision in src/unnamed/part_007 -/

/-- The summaryEnabled option of part_007 (line 6). -/
def Part007.summaryEnabled : Bool := true

/-- The minLength option of part_007 (line 8). -/
def Part007.minLength : Nat := 50

/-- The timeout option of part_007 (line 5). -/
def Part007.timeout : Nat := 7000

/-- getTextContent (part_007 lines 72-84). -/
def Part007.getTextContent (h : Host) (tr : Trace) :
    Except JsError String × Trace :=
  (h.pageText, { tr with extractCount := tr.extractCount + 1 })

/-- initializeAIService (part_007 lines 32-47): constructs the imported
ChromeAIService, initializes it and returns the available flag of its
checkAvailability; any import or initialization failure is caught and
reported as false, folded here into the availability result. -/
def Part007.initializeAIService (h : Host) : Bool :=
  (ChromeAIService.checkAvailability h).available

/-- generateSummary (part_007 lines 92-120), with hasChromeAI whether
the module-level chromeAI instance is already initialized.  When it is
not and initialization reports no AI, throws; then short text fulfils
with the empty string; otherwise delegates to ChromeAIService.summarize
(the catch logs and rethrows). -/
def Part007.generateSummary (h : Host) (hasChromeAI : Bool) (text : String)
    (tr : Trace) : Except JsError String × Trace :=
  if !hasChromeAI && !(Part007.initializeAIService h) then
    (.error (.error ("Chrome AI service not available")), tr)
  else if text.length < Part007.minLength then (.ok (""), tr)
  else ChromeAIService.summarize h text tr

/-- The noteContent computation of addToOmniFocus (part_007 lines
130-148): guarded only by doAI and summaryEnabled (no aiReady gate); a
truthy summary (non-empty, untrimmed) is appended after a blank line;
the block is in a try/catch that continues with the bare url on any
failure. -/
def Part007.noteStep (h : Host) (doAI hasChromeAI timeoutFires : Bool)
    (u : String) (tr : Trace) : String × Trace :=
  if doAI && Part007.summaryEnabled then
    match Part007.getTextContent h tr with
    | (.error _, tr2) => (u, tr2)
    | (.ok pageText, tr2) =>
        match raceTimeout timeoutFires ("Summary for " ++ u)
            (Part007.generateSummary h hasChromeAI pageText tr2) tr2 with
        | (.error _, tr3) => (u, tr3)
        | (.ok summary, tr3) =>
            if summary != "" then (u ++ "\n\n" ++ summary, tr3)
            else (u, tr3)
  else (u, tr)

/-- addToOmniFocus (part_007 lines 127-164).  Throws for an invalid tab;
otherwise computes the note via Part007.noteStep and hands the encoded
title and note to the external sink. -/
def Part007.addToOmniFocus (h : Host) (tab : Option Tab)
    (doAI hasChromeAI timeoutFires : Bool) (tr : Trace) :
    Except JsError Unit × Trace :=
  match tab with
  | none => (.error (.error ("Invalid tab provided")), tr)
  | some tb =>
      match tb.url with
      | none => (.error (.error ("Invalid tab provided")), tr)
      | some u =>
          if u == "" then (.error (.error ("Invalid tab provided")), tr)
          else
            match Part007.noteStep h doAI hasChromeAI timeoutFires u tr with
            | (noteContent, tr4) =>
                (.ok (), { tr4 with
                  sinkUrls := tr4.sinkUrls ++ [omnifocusUrl tb.title noteContent] })

/-! ## Shared concrete inputs and failure predicates -/

/-- A 120-character article text, long enough for every revision. -/
def longText : String := String.mk (List.replicate 120 'a')

/-- A host where every probe and backend call succeeds and both backend
families are present and ready. -/
def allOkHost : Host :=
  { summarizerDefined := true, summarizerHasAvailability := true,
    stableAvailability := .ok .available, stableCreate := .ok (),
    stableSummarize := .ok ("STABLE OUTPUT"), aiDefined := true,
    aiSummarizer := true, aiLanguageModel := true, aiRewriter := true,
    lmCapabilities := .ok ("readily"), sumCapabilities := .ok ("readily"),
    lmCreate := .ok (), lmPrompt := .ok ("LANGUAGE MODEL OUTPUT"),
    expCreate := .ok (), expSummarize := .ok ("DEDICATED SUMMARIZER OUTPUT"),
    pageText := .ok longText }

/-- allOkHost except that the language-model prompt call rejects. -/
def promptRejectsHost : Host :=
  { allOkHost with lmPrompt := .error (.error ("prompt failed")) }

/-- allOkHost except that the page-text extraction rejects. -/
def extractFailsHost : Host :=
  { allOkHost with pageText := .error (.error ("script injection failed")) }

/-- allOkHost except that both summarizer backends yield whitespace-only
summaries. -/
def blankSummaryHost : Host :=
  { allOkHost with stableSummarize := .ok ("   "), expSummarize := .ok (" ") }

/-- A host whose stable availability probe throws while only the prompt
backend remains usable; the language-model capability probe also throws. -/
def probeThrowsHost : Host :=
  { allOkHost with
    stableAvailability := .error (.error ("probe failed")),
    aiSummarizer := false,
    lmCapabilities := .error (.error ("capability probe failed")) }

/-- A host where the stable Summarizer global exists but its availability
probe reports unavailable. -/
def stableUnavailableHost : Host :=
  { allOkHost with stableAvailability := .ok .unavailable }

/-- The raw summary the selected ChromeAIAbstraction backend would
yield: the host oracle behind the apiType dispatch of summarize. -/
def backendRawSummary (h : Host) : ApiType → Except JsError String
  | .stable => h.stableSummarize
  | .experimental => h.expSummarize
  | .prompt => h.lmPrompt
  | .unavailable => .error (.error ("No summarizer available"))

/-- The raw summary the backend selected by ChromeAIService would
yield: the host oracle behind its apiVersion dispatch in summarize. -/
def csRawSummary (h : Host) : Except JsError String :=
  match ChromeAIService.apiVersionOf h with
  | some .stable => h.stableSummarize
  | some .experimental =>
      if h.aiSummarizer then h.expSummarize
      else if h.aiLanguageModel then h.lmPrompt
      else .error (.error ("No summarization method available"))
  | none => .error (.error ("No summarization method available"))

/-- Conditions under which the createSummarizer step of
ChromeAIAbstraction throws for the given apiType (with apiReady true). -/
def createFails (h : Host) : ApiType → Prop
  | .stable => (∃ e, h.stableAvailability = Except.error e) ∨
      h.stableAvailability = Except.ok Availability.unavailable ∨
      (∃ e, h.stableCreate = Except.error e)
  | .experimental => ∃ e, h.expCreate = Except.error e
  | .prompt => True
  | .unavailable => True

/-- Conditions under which the invocation step of
ChromeAIAbstraction.summarize throws for the given apiType. -/
def invokeFails (h : Host) : ApiType → Prop
  | .stable => ∃ e, h.stableSummarize = Except.error e
  | .experimental => ∃ e, h.expSummarize = Except.error e
  | .prompt => (∃ e, h.lmCreate = Except.error e) ∨
      (∃ e, h.lmPrompt = Except.error e)
  | .unavailable => True

/-- The failure modes of the summarization subsystem on the
src/background.js save path: no backend available, page-text extraction
error, timeout, backend init error, invocation error. -/
def Background.summarizationFails (h : Host) (apiType : ApiType)
    (apiReady hasSummarizer timeoutFires : Bool) : Prop :=
  apiReady = false ∨ (∃ e, h.pageText = Except.error e) ∨ timeoutFires = true ∨
    (hasSummarizer = false ∧ createFails h apiType) ∨ invokeFails h apiType

/-- The backend-level failure modes of AIService.generateSummary for the
given capabilities. -/
def AIService.backendFails (h : Host) (caps : Capabilities) : Prop :=
  (caps.languageModel = true ∧ ((∃ e, h.lmCreate = Except.error e) ∨
    (∃ e, h.lmPrompt = Except.error e))) ∨
  (caps.languageModel = false ∧ ((∃ e, h.expCreate = Except.error e) ∨
    (∃ e, h.expSummarize = Except.error e)))

/-- The failure modes of the summarization subsystem on the
ExtensionController.addCurrentTab save path. -/
def AIService.summarizationFails (h : Host) (caps : Capabilities)
    (timeoutFires : Bool) : Prop :=
  caps.ready = false ∨ (∃ e, h.pageText = Except.error e) ∨
    timeoutFires = true ∨ AIService.backendFails h caps

/-- The failure modes of the summarization subsystem on the part_006
save path. -/
def Part006.summarizationFails (h : Host) (timeoutFires : Bool) : Prop :=
  Part006.aiReady h = false ∨ (∃ e, h.pageText = Except.error e) ∨
    timeoutFires = true ∨ (∃ e, h.expCreate = Except.error e) ∨
    (∃ e, h.expSummarize = Except.error e)

/-! ## Helper lemmas -/

/-- A fulfilled ChromeAIAbstraction.summarize call returns exactly the
raw summary of the dispatched backend. -/
theorem summarize_ok_eq_raw (h : Host) (apiType : ApiType) (hasS : Bool)
    (tr tr2 : Trace) (s : String)
    (hok : ChromeAIAbstraction.summarize h apiType true hasS tr = (Except.ok s, tr2)) :
    backendRawSummary h apiType = Except.ok s := by
  unfold ChromeAIAbstraction.summarize ChromeAIAbstraction.refreshedApiType
    ChromeAIAbstraction.createSummarizer ChromeAIAbstraction.promptSummary at hok
  cases apiType <;> cases hasS <;>
    simp only [ChromeAIAbstraction.refreshedApiType, if_true, if_false, Bool.false_eq_true,
      reduceIte, backendRawSummary] at hok ⊢ <;>
    (repeat' split at hok) <;> simp_all

/-- Under any of the init or invocation failure modes,
ChromeAIAbstraction.summarize rejects. -/
theorem summarize_errors_of_failure (h : Host) (apiType : ApiType) (hasS : Bool)
    (tr : Trace)
    (hfail : (hasS = false ∧ createFails h apiType) ∨ invokeFails h apiType) :
    ∃ e tr2, ChromeAIAbstraction.summarize h apiType true hasS tr = (Except.error e, tr2) := by
  cases apiType
  case stable =>
    cases hasS <;>
      rcases hsa : h.stableAvailability with e | a <;>
      (try cases a) <;>
      rcases hsc : h.stableCreate with e' | u' <;>
      rcases hss : h.stableSummarize with e'' | s'' <;>
      simp_all [ChromeAIAbstraction.summarize, ChromeAIAbstraction.createSummarizer,
        ChromeAIAbstraction.refreshedApiType, ChromeAIAbstraction.promptSummary,
        createFails, invokeFails]
  case experimental =>
    cases hasS <;>
      rcases hec : h.expCreate with e | u' <;>
      rcases hes : h.expSummarize with e' | s'' <;>
      simp_all [ChromeAIAbstraction.summarize, ChromeAIAbstraction.createSummarizer,
        ChromeAIAbstraction.refreshedApiType, ChromeAIAbstraction.promptSummary,
        createFails, invokeFails]
  case prompt =>
    cases hasS <;>
      rcases hlc : h.lmCreate with e | u' <;>
      rcases hlp : h.lmPrompt with e' | s'' <;>
      simp_all [ChromeAIAbstraction.summarize, ChromeAIAbstraction.createSummarizer,
        ChromeAIAbstraction.refreshedApiType, ChromeAIAbstraction.promptSummary,
        createFails, invokeFails]
  case unavailable =>
    cases hasS <;>
      simp_all [ChromeAIAbstraction.summarize, ChromeAIAbstraction.createSummarizer,
        ChromeAIAbstraction.refreshedApiType, ChromeAIAbstraction.promptSummary,
        createFails, invokeFails]

/-- ChromeAIAbstraction.summarize never touches the external sink. -/
theorem summarize_preserves_sink (h : Host) (apiType : ApiType) (r hasS : Bool)
    (tr : Trace) :
    (ChromeAIAbstraction.summarize h apiType r hasS tr).2.sinkUrls = tr.sinkUrls := by
  unfold ChromeAIAbstraction.summarize ChromeAIAbstraction.createSummarizer
    ChromeAIAbstraction.promptSummary ChromeAIAbstraction.refreshedApiType
  repeat' first | split | simp only []


/-- Background.generateSummary never touches the external sink. -/
theorem generateSummary_preserves_sink (h : Host) (apiType : ApiType)
    (r hasS : Bool) (text : String) (tr : Trace) :
    (Background.generateSummary h apiType r hasS text tr).2.sinkUrls = tr.sinkUrls := by
  unfold Background.generateSummary
  split
  · rfl
  · have hp := summarize_preserves_sink h apiType r hasS tr
    rcases hs : ChromeAIAbstraction.summarize h apiType r hasS tr with ⟨res, tr2⟩
    rw [hs] at hp
    cases res <;> simpa using hp

/-- AIService.generateSummary never touches the external sink. -/
theorem ais_generateSummary_preserves_sink (h : Host) (caps : Capabilities)
    (text : String) (tr : Trace) :
    (AIService.generateSummary h caps text tr).2.sinkUrls = tr.sinkUrls := by
  unfold AIService.generateSummary AIService.generateWithLanguageModel
    AIService.generateWithSummarizer
  repeat' first | split | simp only []

/-- Part006.getSummary never touches the external sink. -/
theorem p6_getSummary_preserves_sink (h : Host) (text : String) (tr : Trace) :
    (Part006.getSummary h text tr).2.sinkUrls = tr.sinkUrls := by
  unfold Part006.getSummary
  repeat' first | split | simp only []

/-- A fulfilled Background.generateSummary call with a non-empty result
comes from a fulfilled summarize call with exactly that result. -/
theorem generateSummary_ok_nonempty (h : Host) (apiType : ApiType) (hasS : Bool)
    (p s : String) (tr2 tr3 : Trace)
    (hgen : Background.generateSummary h apiType true hasS p tr2 = (Except.ok s, tr3))
    (hs : s ≠ "") :
    ChromeAIAbstraction.summarize h apiType true hasS tr2 = (Except.ok s, tr3) := by
  unfold Background.generateSummary at hgen
  split at hgen
  · simp only [Prod.mk.injEq, Except.ok.injEq] at hgen
    exact absurd hgen.1.symm hs
  · split at hgen
    · simp only [Prod.mk.injEq, Except.ok.injEq] at hgen
      obtain ⟨rfl, rfl⟩ := hgen
      assumption
    · simp only [Prod.mk.injEq, Except.ok.injEq] at hgen
      exact absurd hgen.1.symm hs

/-- Case analysis of Background.noteStep: the note is the bare url
unless summarize fulfilled in time with a non-blank summary; the sink is
never touched. -/
theorem bg_noteStep_cases (h : Host) (doAI apiReady hasS tf : Bool)
    (apiType : ApiType) (u : String) (tr : Trace) :
    ∃ note tr4, Background.noteStep h doAI apiType apiReady hasS tf u tr = (note, tr4) ∧
      tr4.sinkUrls = tr.sinkUrls ∧
      (note = u ∨
        (apiReady = true ∧ tf = false ∧ (∃ p, h.pageText = Except.ok p) ∧
          ∃ s tra trb,
            ChromeAIAbstraction.summarize h apiType true hasS tra = (Except.ok s, trb) ∧
            trimString s ≠ "" ∧ note = u ++ "\n\n" ++ trimString s)) := by
  unfold Background.noteStep Background.getTextContent
  by_cases hg : (doAI && Background.extOpts.summaryEnabled && apiReady) = true
  case neg =>
    rw [if_neg hg]
    exact ⟨u, tr, rfl, rfl, Or.inl rfl⟩
  case pos =>
    rw [if_pos hg]
    have hready : apiReady = true := by
      have := (Bool.and_eq_true_iff.mp hg).2
      exact this
    subst hready
    rcases hpt : h.pageText with e | p
    · exact ⟨u, _, rfl, rfl, Or.inl rfl⟩
    · simp only []
      by_cases hlen :
        (p != "" && decide (Background.extOpts.minLength ≤ p.length)) = true
      case neg =>
        rw [if_neg hlen]
        exact ⟨u, _, rfl, rfl, Or.inl rfl⟩
      case pos =>
        rw [if_pos hlen]
        cases tf
        case true =>
          exact ⟨u, _, rfl, rfl, Or.inl rfl⟩
        case false =>
          simp only [raceTimeout, Bool.false_eq_true, if_false]
          rcases hgen : Background.generateSummary h apiType true hasS p
              { tr with extractCount := tr.extractCount + 1 } with ⟨res, tr3⟩
          have hsink : tr3.sinkUrls = tr.sinkUrls := by
            have := generateSummary_preserves_sink h apiType true hasS p
              { tr with extractCount := tr.extractCount + 1 }
            rw [hgen] at this
            exact this
          cases res
          case error e =>
            exact ⟨u, tr3, rfl, hsink, Or.inl rfl⟩
          case ok s =>
            simp only []
            by_cases hst : (s != "" && trimString s != "") = true
            case neg =>
              rw [if_neg hst]
              exact ⟨u, tr3, rfl, hsink, Or.inl rfl⟩
            case pos =>
              rw [if_pos hst]
              have hs1 : s ≠ "" := by
                have := (Bool.and_eq_true_iff.mp hst).1
                simpa using this
              have hs2 : trimString s ≠ "" := by
                have := (Bool.and_eq_true_iff.mp hst).2
                simpa using this
              refine ⟨u ++ "\n\n" ++ trimString s, tr3, rfl, hsink,
                Or.inr ⟨trivial, trivial, ⟨p, rfl⟩, s,
                  { tr with extractCount := tr.extractCount + 1 }, tr3,
                  generateSummary_ok_nonempty h apiType hasS p s _ _ hgen hs1,
                  hs2, rfl⟩⟩

/-- Every fulfilled src/background.js save performs exactly one sink
invocation; its note is the bare url unless summarize fulfilled in time
with a non-blank summary, in which case the note is the url, a blank
line and the trimmed summary. -/
theorem bg_run_cases (h : Host) (title u : String) (doAI apiReady hasS tf : Bool)
    (apiType : ApiType) (tr : Trace) (hne : u ≠ "") :
    ∃ note tr',
      Background.addToOmniFocus h (some ⟨title, some u⟩) doAI apiType apiReady hasS tf tr =
        (Except.ok (), tr') ∧
      tr'.sinkUrls = tr.sinkUrls ++ [omnifocusUrl title note] ∧
      (note = u ∨
        (apiReady = true ∧ tf = false ∧ (∃ p, h.pageText = Except.ok p) ∧
          ∃ s tra trb,
            ChromeAIAbstraction.summarize h apiType true hasS tra = (Except.ok s, trb) ∧
            trimString s ≠ "" ∧ note = u ++ "\n\n" ++ trimString s)) := by
  have hbe : (u == "") = false := by simpa using hne
  obtain ⟨note, tr4, hstep, hsink, hcases⟩ :=
    bg_noteStep_cases h doAI apiReady hasS tf apiType u tr
  refine ⟨note, { tr4 with sinkUrls := tr4.sinkUrls ++ [omnifocusUrl title note] },
    ?_, ?_, hcases⟩
  · unfold Background.addToOmniFocus
    simp only [hbe, Bool.false_eq_true, if_false, hstep]
  · simp only [hsink]

/-- OmniFocusService.addTask hands the sink exactly the scheme URL with
the once-encoded title and note. -/
theorem addTask_sink (title note : String) (tr : Trace) :
    OmniFocusService.addTask title note tr =
      (Except.ok (), { tr with sinkUrls := tr.sinkUrls ++ [omnifocusUrl title note] }) := by
  rfl

/-- Case analysis of ExtensionController.noteStep: the note is the bare
url unless generateSummary fulfilled in time with a truthy summary, in
which case the note is the url, a blank line, the marker and the
summary; the sink is never touched. -/
theorem ec_noteStep_cases (h : Host) (includeAI tf : Bool) (caps : Capabilities)
    (u : String) (tr : Trace) :
    ∃ note tr4, ExtensionController.noteStep h includeAI caps tf u tr = (note, tr4) ∧
      tr4.sinkUrls = tr.sinkUrls ∧
      (note = u ∨
        (caps.ready = true ∧ tf = false ∧
          ∃ p s tra trb, h.pageText = Except.ok p ∧
            AIService.generateSummary h caps p tra = (Except.ok s, trb) ∧
            s ≠ "" ∧ note = u ++ "\n\n" ++ summaryMarker ++ s)) := by
  unfold ExtensionController.noteStep ContentExtractor.extractText
  by_cases hg : (includeAI && caps.ready) = true
  case neg =>
    rw [if_neg hg]
    exact ⟨u, tr, rfl, rfl, Or.inl rfl⟩
  case pos =>
    rw [if_pos hg]
    have hready : caps.ready = true := (Bool.and_eq_true_iff.mp hg).2
    rcases hpt : h.pageText with e | p
    · cases e
      exact ⟨u, _, rfl, rfl, Or.inl rfl⟩
    · simp only []
      cases tf
      case true =>
        exact ⟨u, _, rfl, rfl, Or.inl rfl⟩
      case false =>
        simp only [raceTimeout, Bool.false_eq_true, if_false]
        rcases hgen : AIService.generateSummary h caps p
            { tr with extractCount := tr.extractCount + 1 } with ⟨res, tr3⟩
        have hsink : tr3.sinkUrls = tr.sinkUrls := by
          have := ais_generateSummary_preserves_sink h caps p
            { tr with extractCount := tr.extractCount + 1 }
          rw [hgen] at this
          exact this
        cases res
        case error e =>
          exact ⟨u, tr3, rfl, hsink, Or.inl rfl⟩
        case ok s =>
          simp only []
          by_cases hst : (s != "") = true
          case neg =>
            rw [if_neg hst]
            exact ⟨u, tr3, rfl, hsink, Or.inl rfl⟩
          case pos =>
            rw [if_pos hst]
            have hs1 : s ≠ "" := by simpa using hst
            exact ⟨u ++ "\n\n" ++ summaryMarker ++ s, tr3, rfl, hsink,
              Or.inr ⟨hready, trivial, p, s,
                { tr with extractCount := tr.extractCount + 1 }, tr3,
                rfl, hgen, hs1, rfl⟩⟩

/-- Every fulfilled addCurrentTab save performs exactly one sink
invocation; its note is the bare url unless generateSummary fulfilled in
time with a truthy summary, in which case the marker and summary follow
the url. -/
theorem ec_run_cases (h : Host) (title u : String) (includeAI tf : Bool)
    (caps : Capabilities) (tr : Trace) (hne : u ≠ "") :
    ∃ note tr',
      ExtensionController.addCurrentTab h (some ⟨title, some u⟩) includeAI caps tf tr =
        (Except.ok (), tr') ∧
      tr'.sinkUrls = tr.sinkUrls ++ [omnifocusUrl title note] ∧
      (note = u ∨
        (caps.ready = true ∧ tf = false ∧
          ∃ p s tra trb, h.pageText = Except.ok p ∧
            AIService.generateSummary h caps p tra = (Except.ok s, trb) ∧
            s ≠ "" ∧ note = u ++ "\n\n" ++ summaryMarker ++ s)) := by
  have hbe : (u == "") = false := by simpa using hne
  obtain ⟨note, tr4, hstep, hsink, hcases⟩ := ec_noteStep_cases h includeAI tf caps u tr
  refine ⟨note, { tr4 with sinkUrls := tr4.sinkUrls ++ [omnifocusUrl title note] },
    ?_, ?_, hcases⟩
  · unfold ExtensionController.addCurrentTab
    simp only [hbe, Bool.false_eq_true, if_false, hstep]
    exact addTask_sink title note tr4
  · simp only [hsink]

/-- Case analysis of Part006.noteStep: the note is the bare url unless
the experimental summarizer fulfilled in time with a truthy summary. -/
theorem p6_noteStep_cases (h : Host) (doAI tf : Bool) (u : String) (tr : Trace) :
    ∃ note tr4, Part006.noteStep h doAI tf u tr = (note, tr4) ∧
      tr4.sinkUrls = tr.sinkUrls ∧
      (note = u ∨
        (Part006.aiReady h = true ∧ tf = false ∧ (∃ p, h.pageText = Except.ok p) ∧
          (∃ uc, h.expCreate = Except.ok uc) ∧
          ∃ s, h.expSummarize = Except.ok s ∧ s ≠ "" ∧ note = u ++ "\n\n" ++ s)) := by
  unfold Part006.noteStep Part006.getTextContent
  by_cases hg : (doAI && Part006.summaryEnabled && Part006.aiReady h) = true
  case neg =>
    rw [if_neg hg]
    exact ⟨u, tr, rfl, rfl, Or.inl rfl⟩
  case pos =>
    rw [if_pos hg]
    have hready : Part006.aiReady h = true := (Bool.and_eq_true_iff.mp hg).2
    rcases hpt : h.pageText with e | p
    · exact ⟨u, _, rfl, rfl, Or.inl rfl⟩
    · simp only []
      cases tf
      case true =>
        exact ⟨u, _, rfl, rfl, Or.inl rfl⟩
      case false =>
        simp only [raceTimeout, Bool.false_eq_true, if_false]
        unfold Part006.getSummary
        by_cases hlen : p.length < Part006.minLength
        case pos =>
          rw [if_pos hlen]
          exact ⟨u, _, rfl, rfl, Or.inl rfl⟩
        case neg =>
          rw [if_neg hlen]
          rcases hec : h.expCreate with e | uc
          · exact ⟨u, _, rfl, rfl, Or.inl rfl⟩
          · simp only []
            rcases hes : h.expSummarize with e | s
            · exact ⟨u, _, rfl, rfl, Or.inl rfl⟩
            · simp only []
              by_cases hst : (s != "") = true
              case neg =>
                rw [if_neg hst]
                exact ⟨u, _, rfl, rfl, Or.inl rfl⟩
              case pos =>
                rw [if_pos hst]
                exact ⟨u ++ "\n\n" ++ s, _, rfl, rfl,
                  Or.inr ⟨hready, trivial, ⟨p, rfl⟩, ⟨uc, trivial⟩, s, rfl,
                    by simpa using hst, rfl⟩⟩

/-- Every fulfilled part_006 save performs exactly one sink invocation;
its note is the bare url unless the summarizer fulfilled in time with a
truthy summary. -/
theorem p6_run_cases (h : Host) (title u : String) (doAI tf : Bool) (tr : Trace)
    (hne : u ≠ "") :
    ∃ note tr',
      Part006.addToOmniFocus h (some ⟨title, some u⟩) doAI tf tr = (Except.ok (), tr') ∧
      tr'.sinkUrls = tr.sinkUrls ++ [omnifocusUrl title note] ∧
      (note = u ∨
        (Part006.aiReady h = true ∧ tf = false ∧ (∃ p, h.pageText = Except.ok p) ∧
          (∃ uc, h.expCreate = Except.ok uc) ∧
          ∃ s, h.expSummarize = Except.ok s ∧ s ≠ "" ∧ note = u ++ "\n\n" ++ s)) := by
  have hbe : (u == "") = false := by simpa using hne
  obtain ⟨note, tr4, hstep, hsink, hcases⟩ := p6_noteStep_cases h doAI tf u tr
  refine ⟨note, { tr4 with sinkUrls := tr4.sinkUrls ++ [omnifocusUrl title note] },
    ?_, ?_, hcases⟩
  · unfold Part006.addToOmniFocus
    simp only [hbe, Bool.false_eq_true, if_false, hstep]
  · simp only [hsink]

/-- Every part_009 save fulfils and performs exactly one sink
invocation; its note is the bare url unless the summarizer fulfilled
with a truthy summary, in which case the note is built from the
URL-colon and Summary-colon pieces. -/
theorem p9_run_cases (h : Host) (title url : String) (tr : Trace) :
    ∃ note tr',
      Part009.addToOmniFocus h title url tr = (Except.ok (), tr') ∧
      tr'.sinkUrls = tr.sinkUrls ++ [omnifocusUrl title note] ∧
      (note = url ∨
        ∃ s, h.expSummarize = Except.ok s ∧ s ≠ "" ∧
          note = "URL: " ++ url ++ " \n\n Summary: " ++ s) := by
  unfold Part009.addToOmniFocus Part009.summaryStep Part009.getTextContent
    Part009.getSummary
  rcases hpt : h.pageText with e | p
  · exact ⟨url, _, rfl, rfl, Or.inl rfl⟩
  · simp only []
    by_cases hg : (Part009.aiAvailable h && p != "") = true
    case neg =>
      rw [if_neg hg]
      simp only []
      exact ⟨url, _, rfl, rfl, Or.inl rfl⟩
    case pos =>
      rw [if_pos hg]
      rcases hec : h.expCreate with e | uc
      · exact ⟨url, _, rfl, rfl, Or.inl rfl⟩
      · simp only []
        rcases hes : h.expSummarize with e | s
        · exact ⟨url, _, rfl, rfl, Or.inl rfl⟩
        · simp only []
          by_cases hst : (s != "") = true
          case neg =>
            have : s = "" := by simpa using hst
            subst this
            exact ⟨url, _, rfl, rfl, Or.inl rfl⟩
          case pos =>
            rw [if_pos hst]
            exact ⟨"URL: " ++ url ++ " \n\n Summary: " ++ s, _, rfl, rfl,
              Or.inr ⟨s, rfl, by simpa using hst, rfl⟩⟩

/-- Under any backend failure mode, AIService.generateSummary rejects. -/
theorem ais_generateSummary_errors (h : Host) (caps : Capabilities)
    (text : String) (tr : Trace) (hb : AIService.backendFails h caps) :
    ∃ e tr2, AIService.generateSummary h caps text tr = (Except.error e, tr2) := by
  unfold AIService.backendFails at hb
  unfold AIService.generateSummary AIService.generateWithLanguageModel
    AIService.generateWithSummarizer
  rcases hb with ⟨hlm, hc⟩ | ⟨hlm, hc⟩ <;> rcases hc with ⟨e, he⟩ | ⟨e, he⟩ <;>
    (repeat' first | split | simp only []) <;> simp_all


/-- ChromeAIService.getSummarizer never touches the external sink. -/
theorem cs_getSummarizer_preserves_sink (h : Host) (tr : Trace) :
    (ChromeAIService.getSummarizer h tr).2.sinkUrls = tr.sinkUrls := by
  unfold ChromeAIService.getSummarizer
  repeat' first | split | simp only []

/-- ChromeAIService.summarize never touches the external sink. -/
theorem cs_summarize_preserves_sink (h : Host) (text : String) (tr : Trace) :
    (ChromeAIService.summarize h text tr).2.sinkUrls = tr.sinkUrls := by
  have hg := cs_getSummarizer_preserves_sink h tr
  unfold ChromeAIService.summarize
  rcases hgs : ChromeAIService.getSummarizer h tr with ⟨gres, gtr⟩
  rw [hgs] at hg
  (repeat' first | split | simp only []) <;> simp_all

/-- Part007.generateSummary never touches the external sink. -/
theorem p7_generateSummary_preserves_sink (h : Host) (hasC : Bool)
    (text : String) (tr : Trace) :
    (Part007.generateSummary h hasC text tr).2.sinkUrls = tr.sinkUrls := by
  unfold Part007.generateSummary
  split
  · rfl
  · split
    · rfl
    · exact cs_summarize_preserves_sink h text tr

/-- A fulfilled ChromeAIService.summarize call on a 50-character-or-more
text returns exactly the raw summary of the backend its apiVersion
selects. -/
theorem cs_summarize_ok_eq_raw (h : Host) (text : String) (tr tr2 : Trace)
    (s : String) (hlen : 50 ≤ text.length)
    (hok : ChromeAIService.summarize h text tr = (Except.ok s, tr2)) :
    csRawSummary h = Except.ok s := by
  have hne : text ≠ "" := by
    intro he
    rw [he] at hlen
    exact absurd hlen (by decide)
  have hcond : (text == "" || decide (text.length < 50)) = false := by
    simp [hne, Nat.not_lt.mpr hlen]
  unfold ChromeAIService.summarize ChromeAIService.getSummarizer at hok
  simp only [hcond, Bool.false_eq_true, if_false] at hok
  (repeat' split at hok) <;> simp_all [csRawSummary]

/-- A fulfilled Part007.generateSummary call with a non-empty result
passed the length guard and comes from a fulfilled
ChromeAIService.summarize call with exactly that result. -/
theorem p7_generateSummary_ok_nonempty (h : Host) (hasC : Bool) (p s : String)
    (tr2 tr3 : Trace)
    (hgen : Part007.generateSummary h hasC p tr2 = (Except.ok s, tr3))
    (hs : s ≠ "") :
    50 ≤ p.length ∧ ChromeAIService.summarize h p tr2 = (Except.ok s, tr3) := by
  unfold Part007.generateSummary at hgen
  split at hgen
  · simp at hgen
  · split at hgen
    case isTrue hc =>
      simp only [Prod.mk.injEq, Except.ok.injEq] at hgen
      exact absurd hgen.1.symm hs
    case isFalse hc =>
      refine ⟨?_, hgen⟩
      simpa [Part007.minLength] using Nat.not_lt.mp hc

/-- Case analysis of Part007.noteStep: the note is the bare url unless
the ChromeAIService backend fulfilled in time with a truthy summary. -/
theorem p7_noteStep_cases (h : Host) (doAI hasC tf : Bool) (u : String)
    (tr : Trace) :
    ∃ note tr4, Part007.noteStep h doAI hasC tf u tr = (note, tr4) ∧
      tr4.sinkUrls = tr.sinkUrls ∧
      (note = u ∨
        (tf = false ∧ (∃ p, h.pageText = Except.ok p) ∧
          ∃ s, csRawSummary h = Except.ok s ∧ s ≠ "" ∧ note = u ++ "\n\n" ++ s)) := by
  unfold Part007.noteStep Part007.getTextContent
  by_cases hg : (doAI && Part007.summaryEnabled) = true
  case neg =>
    rw [if_neg hg]
    exact ⟨u, tr, rfl, rfl, Or.inl rfl⟩
  case pos =>
    rw [if_pos hg]
    rcases hpt : h.pageText with e | p
    · exact ⟨u, _, rfl, rfl, Or.inl rfl⟩
    · simp only []
      cases tf
      case true =>
        exact ⟨u, _, rfl, rfl, Or.inl rfl⟩
      case false =>
        simp only [raceTimeout, Bool.false_eq_true, if_false]
        rcases hgen : Part007.generateSummary h hasC p
            { tr with extractCount := tr.extractCount + 1 } with ⟨res, tr3⟩
        have hsink : tr3.sinkUrls = tr.sinkUrls := by
          have := p7_generateSummary_preserves_sink h hasC p
            { tr with extractCount := tr.extractCount + 1 }
          rw [hgen] at this
          exact this
        cases res
        case error e =>
          exact ⟨u, tr3, rfl, hsink, Or.inl rfl⟩
        case ok s =>
          simp only []
          by_cases hst : (s != "") = true
          case neg =>
            rw [if_neg hst]
            exact ⟨u, tr3, rfl, hsink, Or.inl rfl⟩
          case pos =>
            rw [if_pos hst]
            have hs1 : s ≠ "" := by simpa using hst
            obtain ⟨hlen, hsum⟩ :=
              p7_generateSummary_ok_nonempty h hasC p s _ tr3 hgen hs1
            have hraw := cs_summarize_ok_eq_raw h p _ tr3 s hlen hsum
            exact ⟨u ++ "\n\n" ++ s, tr3, rfl, hsink,
              Or.inr ⟨trivial, ⟨p, rfl⟩, s, hraw, hs1, rfl⟩⟩

/-- Every fulfilled part_007 save performs exactly one sink invocation;
its note is the bare url unless the ChromeAIService backend fulfilled in
time with a truthy summary. -/
theorem p7_run_cases (h : Host) (title u : String) (doAI hasC tf : Bool)
    (tr : Trace) (hne : u ≠ "") :
    ∃ note tr',
      Part007.addToOmniFocus h (some ⟨title, some u⟩) doAI hasC tf tr =
        (Except.ok (), tr') ∧
      tr'.sinkUrls = tr.sinkUrls ++ [omnifocusUrl title note] ∧
      (note = u ∨
        (tf = false ∧ (∃ p, h.pageText = Except.ok p) ∧
          ∃ s, csRawSummary h = Except.ok s ∧ s ≠ "" ∧ note = u ++ "\n\n" ++ s)) := by
  have hbe : (u == "") = false := by simpa using hne
  obtain ⟨note, tr4, hstep, hsink, hcases⟩ := p7_noteStep_cases h doAI hasC tf u tr
  refine ⟨note, { tr4 with sinkUrls := tr4.sinkUrls ++ [omnifocusUrl title note] },
    ?_, ?_, hcases⟩
  · unfold Part007.addToOmniFocus
    simp only [hbe, Bool.false_eq_true, if_false, hstep]
  · simp only [hsink]

/-! ## Claim theorems -/

/-- C3: a summarize call raced against a timeout of the given duration
settles no later than that duration for every wrapped promise (the
in-flight backend call is abandoned, not awaited further), and when the
backend promise never settles, withTimeout rejects exactly when the
duration elapses. -/
theorem c3_withTimeout_completes_at_duration (d : Nat) (m : String) :
    (∃ e : JsError,
      withTimeout (TimedPromise.never : TimedPromise String) d m =
        TimedPromise.resolves d (Except.error e)) ∧
    (∀ p : TimedPromise String,
      ∃ t v, withTimeout p d m = TimedPromise.resolves t v ∧ t ≤ d) := by
  constructor
  · exact ⟨_, rfl⟩
  · intro p
    cases p with
    | never => exact ⟨d, _, rfl, le_refl d⟩
    | resolves t v =>
        by_cases hle : t ≤ d
        · refine ⟨t, v, ?_, hle⟩
          simp [withTimeout, promiseRace, timeoutRejection, hle]
        · refine ⟨d, Except.error (JsError.error
            (if (m == "") = true then "Timed out after " ++ toString d ++ "ms" else m)),
            ?_, le_refl d⟩
          simp [withTimeout, promiseRace, timeoutRejection, hle]

/-- C5: a throwing readiness probe never propagates out of detection:
ChromeAIAbstraction.checkAvailability always fulfils; when the stable
probe throws, detection behaves exactly as if the stable backend were
absent, and with only a language model present it falls through to the
prompt tier; likewise AIService.detectCapabilities treats a backend
whose capability probe throws as not present. -/
theorem c5_probe_throw_falls_through (h : Host) (e e' : JsError) :
    (∃ v, ChromeAIAbstraction.checkAvailability h = Except.ok v) ∧
    (h.stableAvailability = Except.error e →
      ChromeAIAbstraction.checkAvailability h =
        ChromeAIAbstraction.checkAvailability { h with summarizerDefined := false }) ∧
    (h.stableAvailability = Except.error e → h.aiDefined = true →
      h.aiSummarizer = false → h.aiLanguageModel = true →
      ChromeAIAbstraction.checkAvailability h = Except.ok (ApiType.prompt, true)) ∧
    (h.lmCapabilities = Except.error e' →
      AIService.detectCapabilities h =
        AIService.detectCapabilities { h with aiLanguageModel := false }) := by
  refine ⟨?_, ?_, ?_, ?_⟩
  · unfold ChromeAIAbstraction.checkAvailability
    repeat' first | split | simp only []
    all_goals exact ⟨_, rfl⟩
  · intro hsa
    cases hc : (h.summarizerDefined && h.summarizerHasAvailability) <;>
      simp [ChromeAIAbstraction.checkAvailability, hsa, hc]
  · intro hsa had has hlm
    cases hc : (h.summarizerDefined && h.summarizerHasAvailability) <;>
      simp [ChromeAIAbstraction.checkAvailability, hsa, had, has, hlm, hc]
  · intro hlc
    cases had : h.aiDefined <;>
      simp [AIService.detectCapabilities, hlc, had]

/-- C5 witness: at probeThrowsHost both probes throw; detection falls
through to the prompt backend and fulfils. -/
theorem c5_witness :
    ChromeAIAbstraction.checkAvailability probeThrowsHost =
      Except.ok (ApiType.prompt, true) :=
  (c5_probe_throw_falls_through probeThrowsHost (JsError.error ("probe failed"))
    (JsError.error ("capability probe failed"))).2.2.1 rfl rfl rfl rfl

/-- C10: every save pathway rejects a missing tab, a tab without a url,
or a tab with an empty url with its invalid-tab error, before any
page-text extraction, summarization or sink invocation: the trace is
returned untouched. -/
theorem c10_invalid_tab_rejected_before_effects (h : Host) (tb : Tab)
    (doAI apiReady hasS tf includeAI : Bool) (apiType : ApiType)
    (caps : Capabilities) (tr : Trace)
    (hbad : tb.url = none ∨ tb.url = some ("")) :
    Background.addToOmniFocus h none doAI apiType apiReady hasS tf tr =
      (Except.error (JsError.error ("Invalid tab provided")), tr) ∧
    Background.addToOmniFocus h (some tb) doAI apiType apiReady hasS tf tr =
      (Except.error (JsError.error ("Invalid tab provided")), tr) ∧
    Part006.addToOmniFocus h none doAI tf tr =
      (Except.error (JsError.error ("Invalid tab provided")), tr) ∧
    Part006.addToOmniFocus h (some tb) doAI tf tr =
      (Except.error (JsError.error ("Invalid tab provided")), tr) ∧
    ExtensionController.addCurrentTab h none includeAI caps tf tr =
      (Except.error (JsError.error ("No active tab found")), tr) ∧
    ExtensionController.addCurrentTab h (some tb) includeAI caps tf tr =
      (Except.error (JsError.error ("No active tab found")), tr) := by
  obtain ⟨title, url⟩ := tb
  rcases hbad with h1 | h1 <;> simp only [] at h1 <;> subst h1 <;>
    exact ⟨rfl, rfl, rfl, rfl, rfl, rfl⟩

/-- C10 witness: a tab without a url is rejected by the background save
with an untouched trace. -/
theorem c10_witness :
    Background.addToOmniFocus allOkHost (some ⟨"Example", none⟩) true ApiType.stable
        true false false {} =
      (Except.error (JsError.error ("Invalid tab provided")), {}) :=
  (c10_invalid_tab_rejected_before_effects allOkHost ⟨"Example", none⟩ true true false
    false true ApiType.stable (AIService.capsOf allOkHost) {} (Or.inl rfl)).2.1

/-- C1: under every summarization-subsystem failure mode (no backend
available, backend init error, timeout, invocation error, page-text
extraction error) each save pathway still fulfils — no error escapes the
orchestrating function — and hands the external sink exactly one URL
whose note is the bare tab url. -/
theorem c1_summarization_failure_never_blocks_save (h : Host) (title u : String)
    (doAI apiReady hasS tf includeAI : Bool) (apiType : ApiType)
    (caps : Capabilities) (tr : Trace) (hne : u ≠ "") :
    (Background.summarizationFails h apiType apiReady hasS tf →
      ∃ tr', Background.addToOmniFocus h (some ⟨title, some u⟩) doAI apiType apiReady
          hasS tf tr = (Except.ok (), tr') ∧
        tr'.sinkUrls = tr.sinkUrls ++ [omnifocusUrl title u]) ∧
    (AIService.summarizationFails h caps tf →
      ∃ tr', ExtensionController.addCurrentTab h (some ⟨title, some u⟩) includeAI caps
          tf tr = (Except.ok (), tr') ∧
        tr'.sinkUrls = tr.sinkUrls ++ [omnifocusUrl title u]) ∧
    (Part006.summarizationFails h tf →
      ∃ tr', Part006.addToOmniFocus h (some ⟨title, some u⟩) doAI tf tr =
        (Except.ok (), tr') ∧
        tr'.sinkUrls = tr.sinkUrls ++ [omnifocusUrl title u]) := by
  refine ⟨?_, ?_, ?_⟩
  · intro hfail
    obtain ⟨note, tr', hrun, hsink, hcase⟩ :=
      bg_run_cases h title u doAI apiReady hasS tf apiType tr hne
    rcases hcase with rfl | ⟨hready, htf, ⟨p, hp⟩, s, tra, trb, hsum, hstrim, rfl⟩
    · exact ⟨tr', hrun, hsink⟩
    · exfalso
      unfold Background.summarizationFails at hfail
      rcases hfail with hAR | ⟨e, hpt⟩ | hTF | hCF | hIF
      · rw [hready] at hAR
        simp at hAR
      · rw [hp] at hpt
        simp at hpt
      · rw [htf] at hTF
        simp at hTF
      · obtain ⟨e2, tr2, hErr⟩ :=
          summarize_errors_of_failure h apiType hasS tra (Or.inl hCF)
        rw [hsum] at hErr
        simp at hErr
      · obtain ⟨e2, tr2, hErr⟩ :=
          summarize_errors_of_failure h apiType hasS tra (Or.inr hIF)
        rw [hsum] at hErr
        simp at hErr
  · intro hfail
    obtain ⟨note, tr', hrun, hsink, hcase⟩ :=
      ec_run_cases h title u includeAI tf caps tr hne
    rcases hcase with rfl | ⟨hready, htf, p, s, tra, trb, hp, hgen, hs, rfl⟩
    · exact ⟨tr', hrun, hsink⟩
    · exfalso
      unfold AIService.summarizationFails at hfail
      rcases hfail with hAR | ⟨e, hpt⟩ | hTF | hBF
      · rw [hready] at hAR
        simp at hAR
      · rw [hp] at hpt
        simp at hpt
      · rw [htf] at hTF
        simp at hTF
      · obtain ⟨e2, tr2, hErr⟩ := ais_generateSummary_errors h caps p tra hBF
        rw [hgen] at hErr
        simp at hErr
  · intro hfail
    obtain ⟨note, tr', hrun, hsink, hcase⟩ := p6_run_cases h title u doAI tf tr hne
    rcases hcase with rfl | ⟨hready, htf, ⟨p, hp⟩, ⟨uc, huc⟩, s, hes, hs, rfl⟩
    · exact ⟨tr', hrun, hsink⟩
    · exfalso
      unfold Part006.summarizationFails at hfail
      rcases hfail with hAR | ⟨e, hpt⟩ | hTF | ⟨e, hce⟩ | ⟨e, hse⟩
      · rw [hready] at hAR
        simp at hAR
      · rw [hp] at hpt
        simp at hpt
      · rw [htf] at hTF
        simp at hTF
      · rw [huc] at hce
        simp at hce
      · rw [hes] at hse
        simp at hse

/-- C1 witness: when page-text extraction rejects, the background save
still fulfils and the sink receives the bare url note. -/
theorem c1_witness :
    ∃ tr', Background.addToOmniFocus extractFailsHost
        (some ⟨"Example", some ("https://example.com")⟩) true ApiType.stable true
        false false {} = (Except.ok (), tr') ∧
      tr'.sinkUrls = ([] : List String) ++ [omnifocusUrl ("Example") ("https://example.com")] :=
  (c1_summarization_failure_never_blocks_save extractFailsHost ("Example")
    ("https://example.com") true true false false true ApiType.stable
    (AIService.capsOf extractFailsHost) {} (by decide)).1
    (Or.inr (Or.inl ⟨JsError.error ("script injection failed"), rfl⟩))

/-- C7 (amended): every fulfilled save hands the external sink exactly
one URL of the form omnifocus:///add?name=N ampersand note=M in which N
and M are the title and the note, each percent-encoded exactly once; the
note before encoding is the bare tab url, or the url plus a
revision-specific summary wrapping: a blank line plus the trimmed
summary in src/background.js, a blank line plus the marker line in
addCurrentTab, and the URL-colon/Summary-colon pieces in part_009. -/
theorem c7_sink_url_shape (h : Host) (title u url9 : String)
    (doAI apiReady hasS tf includeAI : Bool) (apiType : ApiType)
    (caps : Capabilities) (tr : Trace) (hne : u ≠ "") :
    (∃ note tr',
      Background.addToOmniFocus h (some ⟨title, some u⟩) doAI apiType apiReady hasS tf tr =
        (Except.ok (), tr') ∧
      tr'.sinkUrls = tr.sinkUrls ++
        ["omnifocus:///add?name=" ++ encodeURIComponent title ++
          "&note=" ++ encodeURIComponent note] ∧
      (note = u ∨ ∃ s, note = u ++ "\n\n" ++ s)) ∧
    (∃ note tr',
      ExtensionController.addCurrentTab h (some ⟨title, some u⟩) includeAI caps tf tr =
        (Except.ok (), tr') ∧
      tr'.sinkUrls = tr.sinkUrls ++
        ["omnifocus:///add?name=" ++ encodeURIComponent title ++
          "&note=" ++ encodeURIComponent note] ∧
      (note = u ∨ ∃ s, note = u ++ "\n\n" ++ summaryMarker ++ s)) ∧
    (∃ note tr',
      Part009.addToOmniFocus h title url9 tr = (Except.ok (), tr') ∧
      tr'.sinkUrls = tr.sinkUrls ++
        ["omnifocus:///add?name=" ++ encodeURIComponent title ++
          "&note=" ++ encodeURIComponent note] ∧
      (note = url9 ∨ ∃ s, note = "URL: " ++ url9 ++ " \n\n Summary: " ++ s)) := by
  refine ⟨?_, ?_, ?_⟩
  · obtain ⟨note, tr', hrun, hsink, hcase⟩ :=
      bg_run_cases h title u doAI apiReady hasS tf apiType tr hne
    refine ⟨note, tr', hrun, hsink, ?_⟩
    rcases hcase with rfl | ⟨-, -, -, s, -, -, -, -, rfl⟩
    · exact Or.inl rfl
    · exact Or.inr ⟨trimString s, rfl⟩
  · obtain ⟨note, tr', hrun, hsink, hcase⟩ :=
      ec_run_cases h title u includeAI tf caps tr hne
    refine ⟨note, tr', hrun, hsink, ?_⟩
    rcases hcase with rfl | ⟨-, -, p, s, -, -, -, -, -, rfl⟩
    · exact Or.inl rfl
    · exact Or.inr ⟨s, rfl⟩
  · obtain ⟨note, tr', hrun, hsink, hcase⟩ := p9_run_cases h title url9 tr
    refine ⟨note, tr', hrun, hsink, ?_⟩
    rcases hcase with rfl | ⟨s, -, -, rfl⟩
    · exact Or.inl rfl
    · exact Or.inr ⟨s, rfl⟩

/-- C7 counterexample: the part_009 revision wraps the note in extra
URL-colon and Summary-colon text, so the note is neither the bare url
nor the url followed by a blank line and the summary. -/
theorem c7_counterexample :
    (Part009.addToOmniFocus allOkHost ("Example") ("https://example.com") {}).2.sinkUrls =
      [omnifocusUrl ("Example")
        ("URL: https://example.com \n\n Summary: DEDICATED SUMMARIZER OUTPUT")] ∧
    ("URL: https://example.com \n\n Summary: DEDICATED SUMMARIZER OUTPUT" : String) ≠
      ("https://example.com") ∧
    ("URL: https://example.com \n\n Summary: DEDICATED SUMMARIZER OUTPUT" : String) ≠
      ("https://example.com" ++ "\n\n" ++ "DEDICATED SUMMARIZER OUTPUT") := by
  exact ⟨rfl, by decide, by decide⟩

/-- C7 witness: a concrete background save in which the sink URL has the
required shape. -/
theorem c7_witness :
    ∃ note tr',
      Background.addToOmniFocus allOkHost
          (some ⟨"Example", some ("https://example.com")⟩) true ApiType.stable true
          false false {} = (Except.ok (), tr') ∧
      tr'.sinkUrls = ([] : List String) ++
        ["omnifocus:///add?name=" ++ encodeURIComponent ("Example") ++
          "&note=" ++ encodeURIComponent note] ∧
      (note = "https://example.com" ∨
        ∃ s, note = "https://example.com" ++ "\n\n" ++ s) :=
  (c7_sink_url_shape allOkHost ("Example") ("https://example.com")
    ("https://example.com") true true false false true ApiType.stable
    (AIService.capsOf allOkHost) {} (by decide)).1

/-- C9 (amended): an empty summary is never appended in any revision;
src/background.js additionally guards whitespace-only summaries through
summary.trim(), so whenever the raw backend summary trims to empty the
note handed to the sink is exactly the bare url, with no trailing
separator; the part_006 and part_007 revisions guard only truthiness,
so there only the empty summary is guaranteed not to be appended. -/
theorem c9_blank_summary_not_appended (h : Host) (title u s0 : String)
    (doAI apiReady hasS hasC tf : Bool) (apiType : ApiType) (tr : Trace)
    (hne : u ≠ "") :
    (backendRawSummary h apiType = Except.ok s0 → trimString s0 = "" →
      ∃ tr', Background.addToOmniFocus h (some ⟨title, some u⟩) doAI apiType apiReady
          hasS tf tr = (Except.ok (), tr') ∧
        tr'.sinkUrls = tr.sinkUrls ++ [omnifocusUrl title u]) ∧
    (h.expSummarize = Except.ok ("") →
      ∃ tr', Part006.addToOmniFocus h (some ⟨title, some u⟩) doAI tf tr =
        (Except.ok (), tr') ∧
        tr'.sinkUrls = tr.sinkUrls ++ [omnifocusUrl title u]) ∧
    (csRawSummary h = Except.ok ("") →
      ∃ tr', Part007.addToOmniFocus h (some ⟨title, some u⟩) doAI hasC tf tr =
        (Except.ok (), tr') ∧
        tr'.sinkUrls = tr.sinkUrls ++ [omnifocusUrl title u]) := by
  refine ⟨?_, ?_, ?_⟩
  · intro hraw htrim
    obtain ⟨note, tr', hrun, hsink, hcase⟩ :=
      bg_run_cases h title u doAI apiReady hasS tf apiType tr hne
    rcases hcase with rfl | ⟨hready, htf, ⟨p, hp⟩, s, tra, trb, hsum, hstrim, rfl⟩
    · exact ⟨tr', hrun, hsink⟩
    · exfalso
      have := summarize_ok_eq_raw h apiType hasS tra trb s hsum
      rw [hraw] at this
      simp only [Except.ok.injEq] at this
      rw [this] at htrim
      exact hstrim htrim
  · intro hes0
    obtain ⟨note, tr', hrun, hsink, hcase⟩ := p6_run_cases h title u doAI tf tr hne
    rcases hcase with rfl | ⟨hready, htf, ⟨p, hp⟩, ⟨uc, huc⟩, s, hes, hs, rfl⟩
    · exact ⟨tr', hrun, hsink⟩
    · exfalso
      rw [hes0] at hes
      simp only [Except.ok.injEq] at hes
      exact hs hes.symm
  · intro hcs0
    obtain ⟨note, tr', hrun, hsink, hcase⟩ := p7_run_cases h title u doAI hasC tf tr hne
    rcases hcase with rfl | ⟨htf, ⟨p, hp⟩, s, hraw, hs, rfl⟩
    · exact ⟨tr', hrun, hsink⟩
    · exfalso
      rw [hcs0] at hraw
      simp only [Except.ok.injEq] at hraw
      exact hs hraw.symm

set_option maxRecDepth 8192 in
/-- C9 counterexample: in the part_006 and part_007 revisions a
whitespace-only summary passes the truthiness guard and is appended
verbatim after the separator, leaving the separator and the whitespace
trailing the url. -/
theorem c9_counterexample :
    (Part006.addToOmniFocus blankSummaryHost
      (some ⟨"Example", some ("https://example.com")⟩) true false {}).2.sinkUrls =
      [omnifocusUrl ("Example") ("https://example.com" ++ "\n\n" ++ " ")] ∧
    (Part007.addToOmniFocus blankSummaryHost
      (some ⟨"Example", some ("https://example.com")⟩) true true false {}).2.sinkUrls =
      [omnifocusUrl ("Example") ("https://example.com" ++ "\n\n" ++ "   ")] ∧
    ("https://example.com" ++ "\n\n" ++ " " : String) ≠ ("https://example.com") ∧
    ("https://example.com" ++ "\n\n" ++ "   " : String) ≠ ("https://example.com") := by
  exact ⟨rfl, rfl, by decide, by decide⟩

/-- C9 witness: a background save whose stable backend yields a
whitespace-only summary hands the sink the bare url note. -/
theorem c9_witness :
    ∃ tr', Background.addToOmniFocus blankSummaryHost
        (some ⟨"Example", some ("https://example.com")⟩) true ApiType.stable true false
        false {} = (Except.ok (), tr') ∧
      tr'.sinkUrls = ([] : List String) ++
        [omnifocusUrl ("Example") ("https://example.com")] :=
  (c9_blank_summary_not_appended blankSummaryHost ("Example") ("https://example.com")
    ("   ") true true false true false ApiType.stable {} (by decide)).1 rfl (by decide)

/-- C4 (amended): with the dedicated stable summarizer present and
available, ChromeAIAbstraction detection selects it regardless of the
language model, and its summarize dispatches to the summarizer backend;
the AIService revision however prefers the general language model:
whenever the detected capabilities include the language model — as they
do when both backends report readily — generateSummary runs the
language-model path, not the dedicated summarizer. -/
theorem c4_backend_priority (h : Host) (caps : Capabilities) (text : String)
    (tr : Trace) (hsd : h.summarizerDefined = true)
    (hsha : h.summarizerHasAvailability = true)
    (hav : h.stableAvailability = Except.ok Availability.available)
    (hlm : caps.languageModel = true) (hready : caps.ready = true)
    (hlen : CONFIG.minTextLength ≤ text.length) :
    chromeAIStartup h = (ApiType.stable, true) ∧
    (ChromeAIAbstraction.summarize h ApiType.stable true true tr).1 = h.stableSummarize ∧
    AIService.generateSummary h caps text tr = AIService.generateWithLanguageModel h tr := by
  refine ⟨?_, rfl, ?_⟩
  · simp [chromeAIStartup, ChromeAIAbstraction.checkAvailability, hsd, hsha, hav]
  · simp [AIService.generateSummary, hready, hlm, Nat.not_lt.mpr hlen]

set_option maxRecDepth 4096 in
/-- C4 counterexample: with both backends present and reporting readily,
AIService.generateSummary yields the language-model output, not the
dedicated-summarizer output. -/
theorem c4_counterexample :
    AIService.capsOf allOkHost =
      { languageModel := true, summarizer := true, ready := true } ∧
    AIService.generateSummary allOkHost (AIService.capsOf allOkHost) longText {} =
      (Except.ok ("LANGUAGE MODEL OUTPUT"),
        { createCount := 1, destroyCount := 1, invokeCount := 1,
          extractCount := 0, sinkUrls := [] }) ∧
    ("LANGUAGE MODEL OUTPUT" : String) ≠ ("DEDICATED SUMMARIZER OUTPUT") := by
  exact ⟨rfl, rfl, by decide⟩

set_option maxRecDepth 4096 in
/-- C4 witness: the amended priority facts at the all-ready host. -/
theorem c4_witness :
    chromeAIStartup allOkHost = (ApiType.stable, true) ∧
    (ChromeAIAbstraction.summarize allOkHost ApiType.stable true true {}).1 =
      allOkHost.stableSummarize ∧
    AIService.generateSummary allOkHost (AIService.capsOf allOkHost) longText {} =
      AIService.generateWithLanguageModel allOkHost {} :=
  c4_backend_priority allOkHost (AIService.capsOf allOkHost) longText {} rfl rfl rfl
    rfl rfl (by decide)

/-- C6 (amended): text shorter than the revision threshold never
reaches a backend — no session is created and nothing is invoked, the
trace is untouched — but the outcome differs by revision:
background.js generateSummary and part_006 getSummary fulfil with the
empty string, ChromeAIService.summarize fulfils with a sentinel
sentence, and AIService.generateSummary rejects with a text-too-short
error. -/
theorem c6_short_text_skips_backend (h : Host) (apiType : ApiType)
    (apiReady hasS : Bool) (caps : Capabilities) (text : String) (tr : Trace)
    (hshort : text.length < 50) :
    Background.generateSummary h apiType apiReady hasS text tr = (Except.ok (""), tr) ∧
    Part006.getSummary h text tr = (Except.ok (""), tr) ∧
    ChromeAIService.summarize h text tr =
      (Except.ok ("Text too short to summarize"), tr) ∧
    (caps.ready = true → text.length < CONFIG.minTextLength →
      AIService.generateSummary h caps text tr =
        (Except.error (JsError.error ("Text too short (" ++ toString text.length ++
          " chars, minimum " ++ toString CONFIG.minTextLength ++ ")")), tr)) := by
  refine ⟨?_, ?_, ?_, ?_⟩
  · unfold Background.generateSummary
    rw [if_pos]
    simp [Background.extOpts, hshort]
  · unfold Part006.getSummary
    rw [if_pos]
    simpa [Part006.minLength] using hshort
  · unfold ChromeAIService.summarize
    rw [if_pos]
    simp [hshort]
  · intro hr hlen
    simp [AIService.generateSummary, hr, hlen]

/-- C6 counterexample: for a 5-character text the AIService revision
rejects with a text-too-short error rather than returning a skip
outcome, and ChromeAIService fulfils with a sentinel summary string. -/
theorem c6_counterexample :
    AIService.generateSummary allOkHost (AIService.capsOf allOkHost) ("short") {} =
      (Except.error (JsError.error ("Text too short (5 chars, minimum 100)")), {}) ∧
    ChromeAIService.summarize allOkHost ("short") {} =
      (Except.ok ("Text too short to summarize"), {}) := by
  exact ⟨rfl, rfl⟩

/-- C6 witness: background generateSummary on a 5-character text fulfils
with the empty string and an untouched trace. -/
theorem c6_witness :
    Background.generateSummary allOkHost ApiType.stable true false ("short") {} =
      (Except.ok (""), {}) :=
  (c6_short_text_skips_backend allOkHost ApiType.stable true false
    (AIService.capsOf allOkHost) ("short") {} (by decide)).1

/-- C8 (amended): for ChromeAIAbstraction.checkAvailability the
invariant holds — the stored apiType is unavailable exactly when
apiReady is false; for ChromeAIService.checkAvailability only one
direction holds — a null version implies status unavailable — because a
detected stable backend may itself report status unavailable. -/
theorem c8_capability_invariant (h : Host) :
    ((chromeAIStartup h).1 = ApiType.unavailable ↔ (chromeAIStartup h).2 = false) ∧
    ((ChromeAIService.checkAvailability h).version = none →
      (ChromeAIService.checkAvailability h).status = "unavailable") := by
  constructor
  · cases hsd : h.summarizerDefined <;> cases hsha : h.summarizerHasAvailability <;>
      cases had : h.aiDefined <;> cases has : h.aiSummarizer <;>
      cases hal : h.aiLanguageModel <;>
      rcases hsa : h.stableAvailability with e | a <;> (try cases a) <;>
      simp [chromeAIStartup, ChromeAIAbstraction.checkAvailability,
        hsd, hsha, had, has, hal, hsa]
  · unfold ChromeAIService.checkAvailability ChromeAIService.apiVersionOf
    repeat' first | split | simp only []
    all_goals simp

/-- C8 counterexample: with the stable Summarizer global present but its
probe reporting unavailable, ChromeAIService.checkAvailability returns a
detected stable backend carrying readiness unavailable, violating the
claimed equivalence. -/
theorem c8_counterexample :
    ChromeAIService.checkAvailability stableUnavailableHost =
      { available := false, status := "unavailable", version := some ("stable") } ∧
    (some ("stable") : Option String) ≠ none := by
  exact ⟨rfl, by decide⟩

/-- C2: at a backend whose prompt rejects, the language-model path of
AIService creates a session (createCount one) but never destroys it
(destroyCount zero): the straight-line session.destroy() after the
prompt is skipped on the rejection path, while the success path destroys
exactly once. -/
theorem c2_destroy_skipped_on_prompt_rejection :
    AIService.generateWithLanguageModel promptRejectsHost {} =
      (Except.error (JsError.error ("prompt failed")),
        { createCount := 1, destroyCount := 0, invokeCount := 1,
          extractCount := 0, sinkUrls := [] }) ∧
    (AIService.generateWithLanguageModel allOkHost {}).2.destroyCount = 1 := by
  exact ⟨rfl, rfl⟩
